import Mathlib

/-!
Verification of the list/view synchronization engine of the `spot` repository
(`src/app/components/playlist/playlist.rs`) and of the edge-triggered
pagination trigger (`src/app/components/podcasts/podcasts.rs`), as a shallow
embedding in Lean 4.

Widget-toolkit state that the Rust code mutates through GTK calls is made
explicit: each list row carries a `selectable` and a `selected` flag
(`gtk::ListBoxRow::set_selectable`, `gtk::ListBox::select_row` /
`unselect_row`), and the list box carries an interaction mode
(`gtk::SelectionMode`).  Fire-and-forget commands sent to the domain model
(`play_song`, `select_song`, `deselect_song`, `load_more_playlists`) are
recorded as an explicit list of emitted calls.
-/

namespace Spot

/-- Modelled from the spec: a Backing Item (`SongModel`, repository code
outside `src/`): an item with a stable string identifier and the
engine-visible `is_active` flag, mutated by `set_playing`. -/
structure SongModel where
  id : String
  playing : Bool
deriving DecidableEq, Repr

/-- Modelled from the spec: the external Selection State snapshot (repository
code outside `src/`), answering `is_selection_enabled` and
`is_song_selected(id)`; read-only to the engine. -/
structure SelectionState where
  is_selection_enabled : Bool
  is_song_selected : String → Bool

/-- Playback events matched by `Playlist::on_event`; `other_playback` stands
for the remaining variants of the repository's `PlaybackEvent`, which reach
the `should_refresh_songs` guard. -/
inductive PlaybackEvent where
  | track_changed (id : String)
  | playback_stopped
  | other_playback
deriving DecidableEq, Repr

/-- Selection events matched by `Playlist::on_event`; `other_selection`
stands for the remaining variants of the repository's `SelectionEvent`. -/
inductive SelectionEvent where
  | selection_mode_changed (active : Bool)
  | other_selection
deriving DecidableEq, Repr

/-- Modelled from the spec: the application-wide event type `AppEvent`
(repository code outside `src/`), with the variants the two source files
match on and catch-all constructors for the rest. -/
inductive AppEvent where
  | playback_event (e : PlaybackEvent)
  | selection_event (e : SelectionEvent)
  | started
  | login_completed
  | other (tag : Nat)
deriving DecidableEq, Repr

/-- The two `gtk::SelectionMode` values the engine uses:
`Multiple` while selection mode is on, `None` while it is off. -/
inductive GtkSelectionMode where
  | none
  | multiple
deriving DecidableEq, Repr

/-- The GTK-side state of one bound row: the `gtk::ListBoxRow` flags
`selectable` and `selected`, plus the contextual capabilities attached to
the row's `Song` widget (`set_actions` / `set_menu`; `none` = absent). -/
structure RowState where
  selectable : Bool
  selected : Bool
  actions : Option Unit
  menu : Option Unit
deriving DecidableEq, Repr

/-- A fire-and-forget command emitted by the engine to the domain model. -/
inductive ModelCall where
  | play_song (id : String)
  | select_song (id : String)
  | deselect_song (id : String)
deriving DecidableEq, Repr

/-- The `PlaylistModel` trait: required capabilities plus optional ones whose
defaults mirror the trait's default method bodies (`actions_for` and
`menu_for` return `None`, `selection` returns `None`).  The command methods
`play_song` / `select_song` / `deselect_song` are side-effect-only and are
represented by the emitted `ModelCall`s instead of fields. -/
structure PlaylistModel where
  songs : List SongModel
  current_song_id : Option String
  should_refresh_songs : AppEvent → Bool
  actions_for : String → Option Unit := fun _ => Option.none
  menu_for : String → Option Unit := fun _ => Option.none
  selection : Option SelectionState := Option.none

/-- The engine's state: the projected list store, the one-to-one row states
produced by `bind_model`, and the list box's interaction mode. -/
structure PlaylistState where
  store : List SongModel
  rows : List RowState
  selectionMode : GtkSelectionMode

/-- Embeds `model.selection().map(|s| s.is_selection_enabled()).unwrap_or(false)` —
the fresh selection-snapshot query at the top of the row-activation
handler. -/
def selection_enabled (model : PlaylistModel) : Bool :=
  (model.selection.map (fun s => s.is_selection_enabled)).getD false

/-- Embeds `Playlist::set_row_state`: recomputes the item's `playing` flag from
`current_song_id`, and reconciles the row's selection visuals from the
external Selection State (`is_song_selected`).  Returns the mutated item and
the mutated row. -/
def set_row_state (model : PlaylistModel) (item : SongModel) (row : RowState) :
    SongModel × RowState :=
  let is_current := (model.current_song_id.map (fun s => s == item.id)).getD false
  let is_selected := (model.selection.map (fun s => s.is_song_selected item.id)).getD false
  let item := { item with playing := is_current }
  if is_selected then
    (item, { row with selectable := true, selected := true })
  else
    (item, { row with selectable := false })

/-- The `bind_model` widget-creation closure: builds a fresh
`gtk::ListBoxRow` (GTK defaults: selectable, not selected), attaches the
model's optional menu and actions to the row's `Song` widget, then applies
`set_row_state`. -/
def bind_row (model : PlaylistModel) (item : SongModel) : SongModel × RowState :=
  let row : RowState :=
    { selectable := true, selected := false, actions := Option.none, menu := Option.none }
  let row := { row with menu := model.menu_for item.id, actions := model.actions_for item.id }
  set_row_state model item row

/-- The loop body of `Playlist::update_list`, recursing simultaneously over
the model's `songs()` (the iterated list) and the store: for the `i`-th model
song, the store element at index `i` gets
`set_playing(current_song_id == model_song.id)`.  When the store is shorter
than `songs()` the Rust `list_model.get(i)` would be out of bounds
(a programming-error condition); the remaining iterations are dropped here. -/
def update_list_aux (current : Option String) :
    List SongModel → List SongModel → List SongModel
  | _, [] => []
  | [], store => store
  | msong :: ms, song :: rest =>
      let is_current := (current.map (fun s => s == msong.id)).getD false
      { song with playing := is_current } :: update_list_aux current ms rest

/-- Embeds `Playlist::update_list` (Targeted refresh): iterates over
`self.model.songs()` and, for each index, sets the `playing` flag of the
store element at that index from the comparison of `current_song_id` with
the **model's** song id at that index. -/
def update_list (model : PlaylistModel) (store : List SongModel) : List SongModel :=
  update_list_aux model.current_song_id model.songs store

/-- Following the spec's words (for comparison with `update_list`): "for
every element currently in the store, recompute only `is_active` by
comparing **the element's identifier** to the model's reported current
active identifier". -/
def update_list_spec (model : PlaylistModel) (store : List SongModel) : List SongModel :=
  store.map fun song =>
    { song with playing := (model.current_song_id.map (fun s => s == song.id)).getD false }

/-- Embeds `Playlist::reset_list` (Full reset): `replace_all(self.model.songs())`;
the bound `bind_model` callback then rebinds every row from the fresh
items. -/
def reset_list (model : PlaylistModel) (st : PlaylistState) : PlaylistState :=
  let bound := model.songs.map (fun item => bind_row model item)
  { st with store := bound.map Prod.fst, rows := bound.map Prod.snd }

/-- Embeds `Playlist::set_selection_active`: enabling switches the list box to
`SelectionMode::Multiple`; disabling unselects every currently selected row,
marks each of them non-selectable, then switches to `SelectionMode::None`. -/
def set_selection_active (st : PlaylistState) (active : Bool) : PlaylistState :=
  if active then
    { st with selectionMode := GtkSelectionMode.multiple }
  else
    { st with
      rows := st.rows.map fun row =>
        if row.selected then { row with selected := false, selectable := false } else row,
      selectionMode := GtkSelectionMode.none }

/-- The `connect_row_activated` handler: resolves the index in the store
(out of bounds is a programming-error condition, returned as `none`), reads
the selection snapshot fresh, and branches: selection on and row selected →
unselect, mark non-selectable, `deselect_song`; selection on and row not
selected → (after `set_selectable(true)`) select, `select_song`; selection
off → `play_song`.  Returns the new state and the emitted calls. -/
def on_row_activated (model : PlaylistModel) (st : PlaylistState) (index : Nat) :
    Option (PlaylistState × List ModelCall) :=
  match st.store[index]?, st.rows[index]? with
  | some song, some row =>
      if selection_enabled model then
        let row := { row with selectable := true }
        if row.selected then
          let row := { row with selected := false }
          let row := { row with selectable := false }
          some ({ st with rows := st.rows.set index row }, [ModelCall.deselect_song song.id])
        else
          let row := { row with selected := true }
          some ({ st with rows := st.rows.set index row }, [ModelCall.select_song song.id])
      else
        some (st, [ModelCall.play_song song.id])
  | _, _ => Option.none

/-- Embeds `EventListener::on_event` for `Playlist`: the closed event
classification — `TrackChanged` → targeted refresh, `PlaybackStopped` →
full reset, `SelectionModeChanged` → mode toggle, then the
`should_refresh_songs` guard → full reset, else no-op. -/
def on_event (model : PlaylistModel) (st : PlaylistState) (event : AppEvent) :
    PlaylistState :=
  match event with
  | AppEvent.playback_event (PlaybackEvent.track_changed _) =>
      { st with store := update_list model st.store }
  | AppEvent.playback_event PlaybackEvent.playback_stopped =>
      reset_list model st
  | AppEvent.selection_event (SelectionEvent.selection_mode_changed active) =>
      set_selection_active st active
  | e =>
      if model.should_refresh_songs e then reset_list model st else st

/-- Whether `on_event` routes this event to the Full-reset bucket:
`PlaybackStopped`, or any event that reaches and passes the
`should_refresh_songs` guard. -/
def is_full_reset (model : PlaylistModel) (event : AppEvent) : Bool :=
  match event with
  | AppEvent.playback_event (PlaybackEvent.track_changed _) => false
  | AppEvent.playback_event PlaybackEvent.playback_stopped => true
  | AppEvent.selection_event (SelectionEvent.selection_mode_changed _) => false
  | e => model.should_refresh_songs e

/-- Whether the event matches one of the three built-in buckets of
`on_event` (before the `should_refresh_songs` guard arm). -/
def matches_builtin (event : AppEvent) : Bool :=
  match event with
  | AppEvent.playback_event (PlaybackEvent.track_changed _) => true
  | AppEvent.playback_event PlaybackEvent.playback_stopped => true
  | AppEvent.selection_event (SelectionEvent.selection_mode_changed _) => true
  | _ => false

/-- Processing a sequence of events in arrival order; the paired model lets
the domain model's answers differ from one event to the next. -/
def process_events (evs : List (PlaylistModel × AppEvent)) (st : PlaylistState) :
    PlaylistState :=
  evs.foldl (fun s me => on_event me.1 s me.2) st

/-- The `gtk::PositionType` edge argument of `connect_edge_reached`. -/
inductive GtkPositionType where
  | left
  | right
  | top
  | bottom
deriving DecidableEq, Repr

/-- An error a collaborator's `load_more_playlists` may return. -/
inductive PodcastError where
  | err (msg : String)
deriving DecidableEq, Repr

/-- The pagination collaborator (`PodcastsModel`, repository code outside
`src/`): `load_more_playlists() -> Result<(), Error>`; its next result is
recorded so the trigger's discarding of it can be stated. -/
structure PodcastsModel where
  load_more_result : Except PodcastError Unit

/-- The call the pagination trigger can emit. -/
inductive PodcastCall where
  | load_more
deriving DecidableEq, Repr

/-- The `connect_edge_reached` handler of `Podcasts::new`: if the edge is
`Bottom` and the weak model reference upgrades, call
`load_more_playlists()` and discard its result (`let _ = ...`); otherwise do
nothing.  Returns the emitted calls and the propagated error (always
`none`). -/
def on_edge_reached (weak_model : Option PodcastsModel) (pos : GtkPositionType) :
    List PodcastCall × Option PodcastError :=
  match pos, weak_model with
  | GtkPositionType.bottom, some m =>
      let _result := m.load_more_result
      ([PodcastCall.load_more], Option.none)
  | _, _ => ([], Option.none)

/-! ### Concrete inputs used by witnesses -/

/-- A model whose `songs()` list diverges from the store below. -/
def divergentModel : PlaylistModel :=
  { songs := [{ id := "b", playing := false }],
    current_song_id := some "b",
    should_refresh_songs := fun _ => false }

/-- A store whose single element's identifier differs from the model's. -/
def divergentStore : List SongModel := [{ id := "a", playing := false }]

/-- A model in sync with `exState` below, with no selection snapshot. -/
def exModel : PlaylistModel :=
  { songs := [{ id := "1", playing := false }, { id := "2", playing := false }],
    current_song_id := some "2",
    should_refresh_songs := fun _ => false }

/-- A state whose store mirrors `exModel.songs`. -/
def exState : PlaylistState :=
  { store := [{ id := "1", playing := false }, { id := "2", playing := false }],
    rows := [{ selectable := false, selected := false, actions := Option.none, menu := Option.none },
             { selectable := false, selected := false, actions := Option.none, menu := Option.none }],
    selectionMode := GtkSelectionMode.multiple }

/-- A selection snapshot with selection mode on and `1` selected. -/
def exSelection : SelectionState :=
  { is_selection_enabled := true, is_song_selected := fun i => i == "1" }

/-- A model providing the selection snapshot `exSelection`. -/
def exSelModel : PlaylistModel :=
  { songs := [{ id := "1", playing := false }],
    current_song_id := Option.none,
    should_refresh_songs := fun _ => false,
    selection := some exSelection }

/-- A row that is currently selectable and visually selected. -/
def exRowSel : RowState :=
  { selectable := true, selected := true, actions := Option.none, menu := Option.none }

/-- A one-row state whose row is visually selected, in Multi-Select mode. -/
def exStateSel : PlaylistState :=
  { store := [{ id := "1", playing := false }],
    rows := [exRowSel],
    selectionMode := GtkSelectionMode.multiple }

/-- The spec's §8 scenario snapshot: selection mode on, `A` and `C`
selected. -/
def selAC : SelectionState :=
  { is_selection_enabled := true, is_song_selected := fun i => i == "A" || i == "C" }

/-- A model over backing items `[A, B, C, D]` exposing `selAC`. -/
def modelABCD : PlaylistModel :=
  { songs := [{ id := "A", playing := false }, { id := "B", playing := false },
              { id := "C", playing := false }, { id := "D", playing := false }],
    current_song_id := Option.none,
    should_refresh_songs := fun _ => false,
    selection := some selAC }

/-- A model exercising every optional-capability default: no selection
snapshot, no current song, no actions, no menu. -/
def defaultModel : PlaylistModel :=
  { songs := [{ id := "x", playing := false }],
    current_song_id := Option.none,
    should_refresh_songs := fun _ => false }

/-- A one-row state matching `defaultModel`. -/
def defaultState : PlaylistState :=
  { store := [{ id := "x", playing := false }],
    rows := [{ selectable := false, selected := false,
               actions := Option.none, menu := Option.none }],
    selectionMode := GtkSelectionMode.multiple }

/-- A pagination collaborator whose next `load_more_playlists` call fails. -/
def errPodcasts : PodcastsModel :=
  { load_more_result := Except.error (PodcastError.err "load failed") }

/-! ### Shared lemmas about the operations -/

/-- A targeted refresh rewrites only `playing` flags: identifiers (hence
order and length) are preserved, for any model/store pair. -/
theorem update_list_aux_map_id (c : Option String) (ms store : List SongModel) :
    (update_list_aux c ms store).map SongModel.id = store.map SongModel.id := by
  induction ms generalizing store with
  | nil => cases store <;> simp [update_list_aux]
  | cons msong ms ih =>
      cases store with
      | nil => simp [update_list_aux]
      | cons song rest => simp [update_list_aux, ih]

/-- The targeted-refresh loop is idempotent: the flag written at an index
depends only on the model's song at that index, not on the store's previous
flags. -/
theorem update_list_aux_idem (c : Option String) (ms store : List SongModel) :
    update_list_aux c ms (update_list_aux c ms store) = update_list_aux c ms store := by
  induction ms generalizing store with
  | nil => cases store <;> simp [update_list_aux]
  | cons msong ms ih =>
      cases store with
      | nil => simp [update_list_aux]
      | cons song rest => simp [update_list_aux, ih]

/-- When the store's identifiers coincide with the iterated song list's
identifiers, the source loop agrees with the spec's per-element reading. -/
theorem update_list_aux_eq_spec (c : Option String) (ms store : List SongModel)
    (h : store.map SongModel.id = ms.map SongModel.id) :
    update_list_aux c ms store =
      store.map (fun song =>
        { song with playing := (c.map (fun s => s == song.id)).getD false }) := by
  induction ms generalizing store with
  | nil =>
      cases store with
      | nil => simp [update_list_aux]
      | cons a b => simp at h
  | cons msong ms ih =>
      cases store with
      | nil => simp at h
      | cons song rest =>
          simp only [List.map_cons, List.cons.injEq] at h
          simp [update_list_aux, h.1, ih rest h.2]

/-! ### Claims -/

/-- C7: Targeted refresh is idempotent — applying `update_list` twice with
the same model and no intervening change yields the same store (hence the
same `is_active` flags) as applying it once. -/
theorem targeted_refresh_idempotent (model : PlaylistModel) (store : List SongModel) :
    update_list model (update_list model store) = update_list model store :=
  update_list_aux_idem model.current_song_id model.songs store

/-- C2 counterexample: the claim that each store element's flag is computed
by comparing **that element's** identifier with the current active
identifier fails when the store and the model's `songs()` have diverged —
the source compares the model's song id at the same index instead.  Here
the store holds `a`, the model reports songs `[b]` and current id `b`, and
the source marks the `a` element active although `a ≠ b`. -/
theorem targeted_refresh_uses_model_ids :
    update_list divergentModel divergentStore ≠
      update_list_spec divergentModel divergentStore := by
  decide

/-- C2 (amended): a `TrackChanged` event rewrites only `playing` flags — the
store's identifiers, order and length and the row list are unchanged — and
computes each flag from the identifier of the **model's** song at the same
index; when the store's identifiers equal the model's (the invariant
holding since the last Full reset), this coincides with recomputing each
element's flag from its own identifier, as the spec states. -/
theorem targeted_refresh_amended (model : PlaylistModel) (st : PlaylistState) (i : String)
    (h : st.store.map SongModel.id = model.songs.map SongModel.id) :
    on_event model st (AppEvent.playback_event (PlaybackEvent.track_changed i)) =
      { st with store := update_list_spec model st.store } ∧
    (update_list model st.store).map SongModel.id = st.store.map SongModel.id := by
  refine ⟨?_, update_list_aux_map_id _ _ _⟩
  show ({ st with store := update_list model st.store } : PlaylistState) = _
  rw [update_list, update_list_aux_eq_spec _ _ _ h]
  rfl

/-- Witness for C2 (amended) at a store in sync with the model. -/
theorem targeted_refresh_amended_witness :
    on_event exModel exState (AppEvent.playback_event (PlaybackEvent.track_changed "2")) =
      { exState with store := update_list_spec exModel exState.store } ∧
    (update_list exModel exState.store).map SongModel.id =
      exState.store.map SongModel.id :=
  targeted_refresh_amended exModel exState "2" (by decide)

/-- Any event that `on_event` does not route to the Full-reset bucket leaves
the store's identifier sequence (order, length, identities) unchanged. -/
theorem on_event_store_map_id (model : PlaylistModel) (st : PlaylistState) (e : AppEvent)
    (h : is_full_reset model e = false) :
    (on_event model st e).store.map SongModel.id = st.store.map SongModel.id := by
  cases e with
  | playback_event pe =>
      cases pe with
      | track_changed i =>
          simp only [on_event]
          exact update_list_aux_map_id _ _ _
      | playback_stopped => simp [is_full_reset] at h
      | other_playback =>
          simp only [is_full_reset] at h
          simp [on_event, h]
  | selection_event se =>
      cases se with
      | selection_mode_changed a =>
          cases a <;> simp [on_event, set_selection_active]
      | other_selection =>
          simp only [is_full_reset] at h
          simp [on_event, h]
  | started =>
      simp only [is_full_reset] at h
      simp [on_event, h]
  | login_completed =>
      simp only [is_full_reset] at h
      simp [on_event, h]
  | other n =>
      simp only [is_full_reset] at h
      simp [on_event, h]

/-- C5: an event matching none of the three built-in buckets and for which
`should_refresh_songs` returns false is a complete no-op — store contents,
rows, and interaction mode are all unchanged. -/
theorem unrecognized_event_noop (model : PlaylistModel) (st : PlaylistState) (e : AppEvent)
    (h1 : matches_builtin e = false) (h2 : model.should_refresh_songs e = false) :
    on_event model st e = st := by
  cases e with
  | playback_event pe =>
      cases pe with
      | track_changed i => simp [matches_builtin] at h1
      | playback_stopped => simp [matches_builtin] at h1
      | other_playback => simp [on_event, h2]
  | selection_event se =>
      cases se with
      | selection_mode_changed a => simp [matches_builtin] at h1
      | other_selection => simp [on_event, h2]
  | started => simp [on_event, h2]
  | login_completed => simp [on_event, h2]
  | other n => simp [on_event, h2]

/-- Witness for C5: the `Started` event, which `Playlist::on_event` does not
match and which `exModel.should_refresh_songs` rejects, changes nothing. -/
theorem unrecognized_event_noop_witness :
    on_event exModel exState AppEvent.started = exState :=
  unrecognized_event_noop exModel exState AppEvent.started rfl rfl

/-- C6: over any sequence of processed events none of which is routed to
the Full-reset bucket (no `PlaybackStopped`, no event passing
`should_refresh_songs`), the store's item identifiers keep their order and
identity; only per-element flags may change.  The model may differ from
event to event. -/
theorem no_reset_preserves_order (evs : List (PlaylistModel × AppEvent)) (st : PlaylistState)
    (h : ∀ me ∈ evs, is_full_reset me.1 me.2 = false) :
    (process_events evs st).store.map SongModel.id = st.store.map SongModel.id := by
  induction evs generalizing st with
  | nil => rfl
  | cons me rest ih =>
      have h1 : is_full_reset me.1 me.2 = false := h me (List.mem_cons_self _ _)
      have h2 : ∀ x ∈ rest, is_full_reset x.1 x.2 = false :=
        fun x hx => h x (List.mem_cons_of_mem _ hx)
      calc (process_events (me :: rest) st).store.map SongModel.id
          = (process_events rest (on_event me.1 st me.2)).store.map SongModel.id := rfl
        _ = (on_event me.1 st me.2).store.map SongModel.id := ih (on_event me.1 st me.2) h2
        _ = st.store.map SongModel.id := on_event_store_map_id me.1 st me.2 h1

/-- Witness for C6: a track change, a mode toggle and an ignored event in
sequence leave the store's identifier sequence intact. -/
theorem no_reset_preserves_order_witness :
    (process_events
        [(exModel, AppEvent.playback_event (PlaybackEvent.track_changed "2")),
         (exModel, AppEvent.selection_event (SelectionEvent.selection_mode_changed true)),
         (exModel, AppEvent.started)] exState).store.map SongModel.id =
      exState.store.map SongModel.id :=
  no_reset_preserves_order _ exState (by
    intro me hme
    simp only [List.mem_cons, List.not_mem_nil, or_false] at hme
    rcases hme with h | h | h <;> subst h <;> rfl)

/-- C1: row activation at an in-bounds index branches on the selection
snapshot read fresh from the model at activation time: selection off →
`play_song(id)` and no state change at all; selection on and row not
selected → the row becomes selectable and selected and `select_song(id)` is
emitted; selection on and row selected → the row becomes unselected and
non-selectable and `deselect_song(id)` is emitted. -/
theorem activation_branches (model : PlaylistModel) (st : PlaylistState) (index : Nat)
    (song : SongModel) (row : RowState)
    (hs : st.store[index]? = some song) (hr : st.rows[index]? = some row) :
    (selection_enabled model = false →
        on_row_activated model st index = some (st, [ModelCall.play_song song.id])) ∧
    (selection_enabled model = true → row.selected = false →
        on_row_activated model st index = some ({ st with rows := st.rows.set index { row with selectable := true, selected := true } }, [ModelCall.select_song song.id])) ∧
    (selection_enabled model = true → row.selected = true →
        on_row_activated model st index = some ({ st with rows := st.rows.set index { row with selectable := false, selected := false } }, [ModelCall.deselect_song song.id])) := by
  refine ⟨fun hoff => ?_, fun hon hnot => ?_, fun hon hsel => ?_⟩ <;>
    simp_all [on_row_activated]

/-- Witness for C1: activating the selected row of `exStateSel` while the
snapshot reports selection enabled deselects it and emits `deselect_song`. -/
theorem activation_branches_witness :
    on_row_activated exSelModel exStateSel 0 = some ({ exStateSel with rows := exStateSel.rows.set 0 { exRowSel with selectable := false, selected := false } }, [ModelCall.deselect_song "1"]) :=
  (activation_branches exSelModel exStateSel 0
      { id := "1", playing := false } exRowSel rfl rfl).2.2 rfl rfl

/-- C3: disabling selection mode unselects every currently selected row and
marks it non-selectable, switches the list box to `SelectionMode::None`, and
touches neither the store nor the model's Selection State (the operation
does not read the model at all, so it holds even while the external
Selection State still reports items selected). -/
theorem disable_clears_selection (st : PlaylistState) :
    (set_selection_active st false).selectionMode = GtkSelectionMode.none ∧
    (set_selection_active st false).store = st.store ∧
    (∀ row ∈ (set_selection_active st false).rows, row.selected = false) ∧
    (∀ (i : Nat) (row : RowState), st.rows[i]? = some row → row.selected = true →
        (set_selection_active st false).rows[i]? = some { row with selected := false, selectable := false }) := by
  refine ⟨rfl, rfl, ?_, ?_⟩
  · intro row hrow
    rw [show (set_selection_active st false).rows
        = st.rows.map (fun r =>
            if r.selected then { r with selected := false, selectable := false } else r)
      from rfl, List.mem_map] at hrow
    obtain ⟨r, _, hmap⟩ := hrow
    subst hmap
    by_cases h : r.selected <;> simp [h]
  · intro i row hi hsel
    rw [show (set_selection_active st false).rows
        = st.rows.map (fun r =>
            if r.selected then { r with selected := false, selectable := false } else r)
      from rfl, List.getElem?_map, hi]
    simp [hsel]

/-- Witness for C3: disabling on `exStateSel` (row 0 selected) leaves mode
`None` and row 0 unselected and non-selectable. -/
theorem disable_clears_selection_witness :
    (set_selection_active exStateSel false).selectionMode = GtkSelectionMode.none ∧
    (set_selection_active exStateSel false).rows[0]? =
      some { exRowSel with selected := false, selectable := false } :=
  ⟨(disable_clears_selection exStateSel).1,
   (disable_clears_selection exStateSel).2.2.2 0 exRowSel rfl rfl⟩

/-- C10: in selection mode, activating a selected row deselects it (and
marks it non-selectable), and activating the same row again — selection
mode still on — re-marks it selectable, visually selects it and emits
`select_song`: the `set_selectable(true)` at the top of the handler restores
the affordance that the deselect path removed. -/
theorem reactivation_after_deselect (model : PlaylistModel) (st : PlaylistState)
    (index : Nat) (song : SongModel) (row : RowState)
    (hs : st.store[index]? = some song) (hr : st.rows[index]? = some row)
    (hon : selection_enabled model = true) (hsel : row.selected = true) :
    on_row_activated model st index = some ({ st with rows := st.rows.set index { row with selected := false, selectable := false } }, [ModelCall.deselect_song song.id]) ∧
    on_row_activated model { st with rows := st.rows.set index { row with selected := false, selectable := false } } index = some ({ st with rows := st.rows.set index { row with selectable := true, selected := true } }, [ModelCall.select_song song.id]) := by
  have hlen : index < st.rows.length := by
    rcases List.getElem?_eq_some.mp hr with ⟨hl, _⟩
    exact hl
  constructor
  · simp_all [on_row_activated]
  · have h2 : (st.rows.set index { row with selected := false, selectable := false })[index]? = some { row with selected := false, selectable := false } :=
      List.getElem?_set_eq_of_lt _ hlen
    simp [on_row_activated, hs, h2, hon, List.set_set]

/-- Witness for C10: deselecting then re-activating row 0 of `exStateSel`. -/
theorem reactivation_after_deselect_witness :
    on_row_activated exSelModel exStateSel 0 = some ({ exStateSel with rows := exStateSel.rows.set 0 { exRowSel with selected := false, selectable := false } }, [ModelCall.deselect_song "1"]) ∧
    on_row_activated exSelModel { exStateSel with rows := exStateSel.rows.set 0 { exRowSel with selected := false, selectable := false } } 0 = some ({ exStateSel with rows := exStateSel.rows.set 0 { exRowSel with selectable := true, selected := true } }, [ModelCall.select_song "1"]) :=
  reactivation_after_deselect exSelModel exStateSel 0
    { id := "1", playing := false } exRowSel rfl rfl rfl rfl

/-- The item returned by the bind path: only the `playing` flag is
recomputed (from `current_song_id`), whatever the selection snapshot says. -/
theorem bind_row_fst (model : PlaylistModel) (item : SongModel) :
    (bind_row model item).fst =
      { item with playing := (model.current_song_id.map (fun s => s == item.id)).getD false } := by
  by_cases h : (model.selection.map (fun s => s.is_song_selected item.id)).getD false <;>
    simp [bind_row, set_row_state, h]

/-- The row produced by the bind path under an available selection snapshot:
`selectable` and `selected` both equal `is_song_selected(id)`, and the
optional capabilities are attached as the model returns them. -/
theorem bind_row_snd (model : PlaylistModel) (sel : SelectionState) (item : SongModel)
    (hsel : model.selection = some sel) :
    (bind_row model item).snd =
      { selectable := sel.is_song_selected item.id,
        selected := sel.is_song_selected item.id,
        actions := model.actions_for item.id,
        menu := model.menu_for item.id } := by
  by_cases h : sel.is_song_selected item.id <;>
    simp [bind_row, set_row_state, hsel, h]

/-- A full reset replaces the store with the model's authoritative ordering
(identifier for identifier). -/
theorem reset_list_store_map_id (model : PlaylistModel) (st : PlaylistState) :
    (reset_list model st).store.map SongModel.id = model.songs.map SongModel.id := by
  simp only [reset_list, List.map_map]
  refine List.map_congr_left (fun a _ => ?_)
  simp [Function.comp, bind_row_fst]

/-- After a full reset, the row at index `i` is the one freshly bound from
the model's song at index `i`. -/
theorem reset_list_rows_getElem (model : PlaylistModel) (st : PlaylistState) (i : Nat) :
    (reset_list model st).rows[i]? =
      (model.songs[i]?).map (fun item => (bind_row model item).snd) := by
  simp only [reset_list, List.map_map, List.getElem?_map]
  rfl

/-- C4: a Full reset rebinds every row from the external Selection State:
the rebuilt store mirrors the model's songs, and the row bound for the
model's song at any index is visually selected and selectable exactly when
`is_song_selected(id)` holds — regardless of the prior visual state `st`. -/
theorem reset_reconciles_selection (model : PlaylistModel) (sel : SelectionState)
    (st : PlaylistState) (i : Nat) (item : SongModel)
    (hsel : model.selection = some sel) (hi : model.songs[i]? = some item) :
    (reset_list model st).store.map SongModel.id = model.songs.map SongModel.id ∧
    (reset_list model st).rows[i]? =
      some { selectable := sel.is_song_selected item.id,
             selected := sel.is_song_selected item.id,
             actions := model.actions_for item.id,
             menu := model.menu_for item.id } := by
  refine ⟨reset_list_store_map_id model st, ?_⟩
  simp [reset_list_rows_getElem, hi, bind_row_snd model sel item hsel]

/-- Witness for C4 (the spec's §8 instance): resetting over `[A,B,C,D]`
with `{A, C}` selected, from a prior state with other visuals, leaves the
row for `A` selectable and selected with empty capabilities, and the store
mirroring `[A,B,C,D]`. -/
theorem reset_reconciles_selection_witness :
    (reset_list modelABCD exStateSel).store.map SongModel.id =
      modelABCD.songs.map SongModel.id ∧
    (reset_list modelABCD exStateSel).rows[0]? =
      some { selectable := true, selected := true,
             actions := Option.none, menu := Option.none } :=
  reset_reconciles_selection modelABCD selAC exStateSel 0
    { id := "A", playing := false } rfl rfl

/-- C9: missing optional capabilities are valid defaults, not errors: with
no selection snapshot an activation takes the Direct-Activation branch
(`play_song`, no mutation); binding an item with no snapshot, no current
song, no actions and no menu still succeeds, producing an inactive,
unselected, non-selectable row with empty capabilities. -/
theorem missing_optionals_default (model : PlaylistModel) (st : PlaylistState)
    (index : Nat) (song : SongModel) (row : RowState) (item : SongModel)
    (hsel : model.selection = Option.none)
    (hcur : model.current_song_id = Option.none)
    (hact : model.actions_for item.id = Option.none)
    (hmenu : model.menu_for item.id = Option.none)
    (hs : st.store[index]? = some song) (hr : st.rows[index]? = some row) :
    on_row_activated model st index = some (st, [ModelCall.play_song song.id]) ∧
    bind_row model item =
      ({ item with playing := false },
       { selectable := false, selected := false,
         actions := Option.none, menu := Option.none }) := by
  constructor
  · have hoff : selection_enabled model = false := by simp [selection_enabled, hsel]
    simp [on_row_activated, hs, hr, hoff]
  · simp [bind_row, set_row_state, hsel, hcur, hact, hmenu]

/-- Witness for C9: `defaultModel` leaves every optional capability at its
trait default; activation plays, and binding yields the default row. -/
theorem missing_optionals_default_witness :
    on_row_activated defaultModel defaultState 0 =
      some (defaultState, [ModelCall.play_song "x"]) ∧
    bind_row defaultModel { id := "x", playing := false } =
      ({ id := "x", playing := false },
       { selectable := false, selected := false,
         actions := Option.none, menu := Option.none }) :=
  missing_optionals_default defaultModel defaultState 0
    { id := "x", playing := false }
    { selectable := false, selected := false, actions := Option.none, menu := Option.none }
    { id := "x", playing := false } rfl rfl rfl rfl rfl rfl

/-- C8: the pagination trigger calls `load_more_playlists` exactly when the
reached edge is `Bottom` and the weak model reference is still alive; any
other edge (or a dead model) does nothing; and the trigger never propagates
an error, whatever result `load_more_playlists` would return. -/
theorem edge_reached_pagination (m : PodcastsModel) (weak : Option PodcastsModel)
    (pos : GtkPositionType) :
    on_edge_reached (some m) GtkPositionType.bottom =
      ([PodcastCall.load_more], Option.none) ∧
    (pos ≠ GtkPositionType.bottom → on_edge_reached weak pos = ([], Option.none)) ∧
    on_edge_reached Option.none pos = ([], Option.none) ∧
    (on_edge_reached weak pos).snd = Option.none := by
  refine ⟨rfl, fun hne => ?_, ?_, ?_⟩
  · cases pos <;> first
      | exact absurd rfl hne
      | (cases weak <;> rfl)
  · cases pos <;> rfl
  · cases pos <;> cases weak <;> rfl

/-- Witness for C8: even with a collaborator whose `load_more_playlists`
fails, the bottom edge emits the call with no propagated error, and the top
edge does nothing. -/
theorem edge_reached_pagination_witness :
    on_edge_reached (some errPodcasts) GtkPositionType.bottom =
      ([PodcastCall.load_more], Option.none) ∧
    on_edge_reached (some errPodcasts) GtkPositionType.top = ([], Option.none) :=
  ⟨(edge_reached_pagination errPodcasts (some errPodcasts) GtkPositionType.top).1,
   (edge_reached_pagination errPodcasts (some errPodcasts) GtkPositionType.top).2.1
     (by decide)⟩

end Spot
